import Mathlib

/-!
Verification of the DeepPhysX network-manager core against its specification.

Shallow embedding of `src/DeepPhysX/networks/core/network_manager.py` and
`src/DeepPhysX/simulation/sofa/launcher_sofa_environment.py`.

Numeric arrays are embedded as rational-valued arrays carrying an explicit
shape (exact arithmetic in place of floating point).  Python exceptions are
embedded as an error enumeration returned through `Except`.
-/

/-- Python exception kinds raised by the embedded code.  In Python,
`IndexError` and `KeyError` are the subclasses of `LookupError`;
`FileNotFoundError` is a subclass of `OSError`, not of `LookupError`. -/
inductive PyErr where
  | fileNotFoundError
  | indexError
  | keyError
  | valueError
  deriving DecidableEq, Repr

/-- Whether the exception is an instance of Python's `LookupError`
(true exactly for `IndexError` and `KeyError`). -/
def PyErr.is_lookup_error : PyErr → Bool
  | .indexError => true
  | .keyError => true
  | _ => false

/-- A numpy `ndarray`: a shape together with the flat list of elements,
with exact rationals standing in for floats. -/
structure NArr where
  shape : List ℕ
  elems : List ℚ
  deriving DecidableEq, Repr

/-- `a.reshape(-1)`: returns a fresh one-dimensional view of the same data
(numpy `reshape` is not in place; its result must be assigned to take effect). -/
def NArr.reshape_flat (a : NArr) : NArr :=
  { shape := [a.elems.length], elems := a.elems }

/-- `leadsWith sub s`: `sub` is an initial segment of `s` (helper for Python's
substring test, over the character lists of the strings). -/
def leadsWith : List Char → List Char → Bool
  | [], _ => true
  | _ :: _, [] => false
  | a :: as, b :: bs => (a = b) && leadsWith as bs

/-- `hasSub sub s`: `sub` occurs contiguously inside `s`. -/
def hasSub (sub : List Char) : List Char → Bool
  | [] => leadsWith sub []
  | c :: t => leadsWith sub (c :: t) || hasSub sub t

/-- Python `sub in s` on strings. -/
def pyContains (s sub : String) : Bool :=
  hasSub sub.data s.data

/-- Lexicographic order on character lists, by code point (Python string
comparison). -/
def listLe : List Char → List Char → Bool
  | [], _ => true
  | _ :: _, [] => false
  | a :: as, b :: bs => if a = b then listLe as bs else decide (a < b)

/-- Python `x <= y` on strings. -/
def pyStrLe (x y : String) : Bool :=
  listLe x.data y.data

/-- Insert a string into a sorted list, keeping it sorted (helper for `pySorted`). -/
def insertSorted (x : String) : List String → List String
  | [] => [x]
  | y :: ys => if pyStrLe x y then x :: y :: ys else y :: insertSorted x ys

/-- Python `sorted` on a list of strings (lexicographic insertion sort). -/
def pySorted (l : List String) : List String :=
  l.foldr insertSorted []

/-- Python list indexing `l[i]`: negative indices count from the end;
an index out of the range `-len(l) .. len(l)-1` raises `IndexError`. -/
def pyIndex (l : List String) (i : ℤ) : Except PyErr String :=
  let j : ℤ := if i < 0 then i + l.length else i
  if 0 ≤ j ∧ j < l.length then .ok (l.getD j.toNat "") else .error .indexError

/-! ### NetworkManager.normalize_data (network_manager.py lines 273-292) -/

/-- `NetworkManager.normalize_data`: per-field normalization coefficients are a
(mean, scale) pair; `reverse = true` computes `data * scale + mean`, otherwise
`(data - mean) / scale`, elementwise over the array. -/
def normalize_data (data : NArr) (normalization : ℚ × ℚ) (reverse : Bool := false) : NArr :=
  if reverse then
    { data with elems := data.elems.map (fun x => x * normalization.2 + normalization.1) }
  else
    { data with elems := data.elems.map (fun x => (x - normalization.1) / normalization.2) }

/-! ### NetworkManager.save_network (network_manager.py lines 145-177)

The manager state relevant to saving: the incrementing snapshot counter, the
configured cadence, and the set of file names present in the network directory
(paths are relative to `network_dir`).  The session-derived snapshot name
template is `<session name>_network_<counter>`. -/

structure SaveState where
  session_name : String
  saved_counter : ℕ
  save_every_epoch : ℕ
  files : List String
  deriving DecidableEq, Repr

/-- `self.network_template_name.format(k)`:
`session.split(sep)[-1] + '_network_' + str(k)`. -/
def network_template_name (session_name : String) (k : ℕ) : String :=
  session_name ++ "_network_" ++ toString k

/-- Writing a parameter file: an existing file of the same name is overwritten,
otherwise the name is appended to the directory listing. -/
def writeFile (name : String) (files : List String) : List String :=
  if name ∈ files then files else files ++ [name]

/-- `NetworkManager.save_network`.  Returns the updated state together with the
name of the parameter file written.  `last_save = true` writes the terminal
`networks` file; otherwise all `backup` files are removed first, then with a
configured cadence the counter is incremented and the code writes the numbered
snapshot when `saved_counter % save_every_epoch` is nonzero (Python truthiness
of the modulo) and the rolling `backup_network` file when it is zero; with no
cadence (`save_every_epoch = 0`) it writes `backup_network`. -/
def save_network (s : SaveState) (last_save : Bool := false) : SaveState × String :=
  if last_save then
    ({ s with files := writeFile "networks" s.files }, "networks")
  else
    let files0 := s.files.filter (fun f => ¬ pyContains f "backup")
    if s.save_every_epoch > 0 then
      let c := s.saved_counter + 1
      if c % s.save_every_epoch ≠ 0 then
        let name := network_template_name s.session_name c
        ({ s with saved_counter := c, files := writeFile name files0 }, name)
      else
        ({ s with saved_counter := c, files := writeFile "backup_network" files0 },
         "backup_network")
    else
      ({ s with files := writeFile "backup_network" files0 }, "backup_network")

/-- Iterate `k` intermediate saves (`last_save = false`) from a state. -/
def iterateSaves (s : SaveState) : ℕ → SaveState
  | 0 => s
  | k + 1 => (save_network (iterateSaves s k) false).1

/-- The file name written by the `k`-th intermediate call to `save_network`
(k ≥ 1), starting from a fresh session state with cadence `n`. -/
def kthIntermediateSaveName (session_name : String) (n k : ℕ) : String :=
  (save_network (iterateSaves ⟨session_name, 0, n, []⟩ (k - 1)) false).2

/-! ### NetworkManager.load_network (network_manager.py lines 115-143)

The directory content is abstracted as the list of file names returned by
`listdir(network_dir)` (every listed name being a file). -/

/-- `NetworkManager.load_network`: builds the sorted list of files whose name
contains `network_`, appends those containing `networks.`, raises
`FileNotFoundError` on an empty list, forces index 0 on a singleton, replaces
an index strictly greater than the list length by -1 with a warning, and
finally indexes the list (Python indexing, so a remaining out-of-range index
raises `IndexError`).  Returns the name of the parameter file loaded. -/
def load_network (dir_files : List String) (which_network : ℤ := -1) :
    Except PyErr String :=
  let networks_list := pySorted (dir_files.filter (fun f => pyContains f "network_"))
  let networks_list := networks_list ++ dir_files.filter (fun f => pyContains f "networks.")
  if networks_list.length = 0 then
    .error .fileNotFoundError
  else
    let w : ℤ :=
      if networks_list.length = 1 then 0
      else if which_network > networks_list.length then -1
      else which_network
    pyIndex networks_list w

/-! ### Exchange database and link_clients (network_manager.py lines 93-107)

The `DatabaseHandler` class is not part of the sources under verification;
its Exchange-table operations are modelled from the spec.  Rows are ordered
association lists from field name to array; row ids are list positions. -/

/-- An Exchange-table row: field name to array. -/
abbrev XRow := List (String × NArr)

/-- Modelled from the spec: the Exchange table of the `DatabaseHandler` (the
`database_handler.py` module is absent from the sources), a registered field
schema plus a line-indexed list of mutable rows. -/
structure ExchangeDB where
  fields : List String
  rows : List XRow
  deriving DecidableEq, Repr

/-- Modelled from the spec: `database_handler.create_fields(fields, exchange=True)`
registers the field schema of the Exchange table. -/
def create_fields (db : ExchangeDB) (fs : List String) : ExchangeDB :=
  { db with fields := db.fields ++ fs }

/-- Modelled from the spec: `database_handler.add_data(exchange=True, data={})`
pre-allocates one empty row of the Exchange table. -/
def add_empty_row (db : ExchangeDB) : ExchangeDB :=
  { db with rows := db.rows ++ [[]] }

/-- Modelled from the spec: `database_handler.update(table_name='Exchange', data,
line_id)` overwrites in place exactly the fields named in the payload of the
addressed row; fields not named keep their prior values. -/
def updateRow (row : XRow) (data : XRow) : XRow :=
  row.map (fun p => match data.lookup p.1 with
    | some v => (p.1, v)
    | none => p)

/-- Modelled from the spec: the table-level `update`, replacing row `line_id`
by its field-wise overwrite. -/
def db_update (db : ExchangeDB) (line_id : ℕ) (data : XRow) : ExchangeDB :=
  { db with rows := db.rows.set line_id (updateRow (db.rows.getD line_id []) data) }

/-- `NetworkManager.link_clients`: when a client count is given, first create
the network fields (`net_fields ++ pred_fields`) in the Exchange database, then
add one empty line per client; when `none`, do nothing. -/
def link_clients (db : ExchangeDB) (net_fields pred_fields : List String)
    (nb_clients : Option ℕ) : ExchangeDB :=
  match nb_clients with
  | none => db
  | some n => add_empty_row^[n] (create_fields db (net_fields ++ pred_fields))

/-! ### NetworkManager.compute_online_prediction, write-back stage
(network_manager.py lines 261-271)

The network, its tensors and its transformation hooks are external plug-ins;
the write-back stage is embedded as a function of the already-converted
prediction arrays `data_pred` (one array per prediction field, the result of
`tensor_to_numpy(data_pred[field][0])`), the plug-in's
`pred_norm_fields` mapping, the normalization coefficient table, and the
worker's Exchange row. -/

/-- The write-back stage of `compute_online_prediction`: for each prediction
field, if the field's registered reverse-normalization target name has
coefficients, un-apply normalization (`reverse=True`); the source then
evaluates `data_pred[field].reshape(-1)` as a bare statement — numpy `reshape`
returns a new array and the result is discarded, so the stored array is left
as is.  Finally the prediction fields are written into the Exchange row via
`update`, leaving the row's other fields untouched. -/
def compute_online_write_back (data_pred : List (String × NArr))
    (pred_norm_fields : String → String)
    (normalization : List (String × (ℚ × ℚ)))
    (row : XRow) : XRow :=
  let data_pred := data_pred.map (fun p =>
    let v :=
      match normalization.lookup (pred_norm_fields p.1) with
      | some coeff => normalize_data p.2 coeff true
      | none => p.2
    let _discarded := v.reshape_flat
    (p.1, v))
  updateRow row data_pred

/-! ### NetworkManager construction check (network_manager.py lines 43-45)
and close (lines 300-307) -/

/-- Modelled from the spec: `NetworkConfig.training_stuff` (the
`network_config.py` module is absent from the sources) — true exactly when
both a loss and an optimizer were supplied to the configuration. -/
structure NetworkConfigM where
  loss_supplied : Bool
  optimizer_supplied : Bool
  deriving DecidableEq, Repr

/-- `NetworkConfig.training_stuff`: both a loss and an optimizer supplied. -/
def training_stuff (c : NetworkConfigM) : Bool :=
  c.loss_supplied && c.optimizer_supplied

/-- The construction-time check of `NetworkManager.__init__`: raise
`ValueError` when the pipeline is `training` and the configuration lacks the
training stuff; otherwise the check passes. -/
def init_training_check (c : NetworkConfigM) (pipeline : String) : Except PyErr Unit :=
  if pipeline = "training" && !(training_stuff c) then .error .valueError else .ok ()

/-- `NetworkManager.close`: in training mode perform `save_network(last_save=True)`
(writing the terminal `networks` file); otherwise save nothing.  Returns the
final state together with the list of files written by the call. -/
def close (is_training : Bool) (s : SaveState) : SaveState × List String :=
  if is_training then
    let r := save_network s true
    (r.1, [r.2])
  else
    (s, [])

/-! ### Worker launch entry point (launcher_sofa_environment.py lines 8-28) -/

/-- Outcome of the launcher script: either print the usage message and exit
with a status code, or proceed to construct and launch the `TcpIpClient`. -/
inductive LaunchResult where
  | usage_exit (code : ℕ)
  | launch (file_path env_class ip_address port instance_id instance_nb : String)
  deriving DecidableEq, Repr

/-- Whether the launcher proceeded to launch the client. -/
def LaunchResult.is_launch : LaunchResult → Bool
  | .launch _ _ _ _ _ _ => true
  | _ => false

/-- The `__main__` block of `launcher_sofa_environment.py`: `argv` includes the
script name at position 0, so six positional arguments mean `len(argv) == 7`;
any other length prints the usage message and exits with status 1, otherwise
the client is created from `argv[1..6]` and launched. -/
def launcher_main (argv : List String) : LaunchResult :=
  if argv.length ≠ 7 then
    .usage_exit 1
  else
    .launch (argv.getD 1 "") (argv.getD 2 "") (argv.getD 3 "")
      (argv.getD 4 "") (argv.getD 5 "") (argv.getD 6 "")

/-! ## Supporting lemmas -/

/-- Pre-allocating `k` empty rows adds exactly `k` to the row count. -/
lemma add_empty_row_iterate_length (d : ExchangeDB) (k : ℕ) :
    (add_empty_row^[k] d).rows.length = d.rows.length + k := by
  induction k with
  | zero => simp
  | succ k ih =>
      rw [Function.iterate_succ_apply']
      simp [add_empty_row, ih]
      omega

/-! ## Claims -/

/-- Claim C1: the spec says that with a configured cadence `N > 0` the `k`-th
intermediate `save_network` call writes a numbered snapshot exactly when `k` is
a multiple of `N`, and the rolling `backup_network` file otherwise.  The code
has the condition inverted (`if saved_counter % save_every_epoch:` is truthy
exactly when the counter is NOT a multiple of the cadence): with cadence 1
every intermediate save writes only `backup_network` and never a snapshot, and
with cadence 2 the first call writes snapshot 1 while the second call (a
multiple of 2) writes `backup_network`. -/
theorem save_network_cadence_inverted :
    kthIntermediateSaveName "default" 1 1 = "backup_network" ∧
    kthIntermediateSaveName "default" 1 2 = "backup_network" ∧
    kthIntermediateSaveName "default" 2 1 = "default_network_1" ∧
    kthIntermediateSaveName "default" 2 2 = "backup_network" :=
  ⟨rfl, rfl, rfl, rfl⟩

/-- Claim C2: the spec says an out-of-range `which_network` index never fails
and falls back to the most recent snapshot.  The code only clamps indices
strictly greater than the list length, so with two saved parameter sets the
out-of-range index 2 falls through to Python list indexing and raises
`IndexError`, while index 3 does get clamped and falls back to the most recent
snapshot. -/
theorem load_network_boundary_index_error :
    load_network ["default_network_1", "default_network_2"] 2 =
      .error .indexError ∧
    load_network ["default_network_1", "default_network_2"] 3 =
      .ok "default_network_2" :=
  ⟨rfl, rfl⟩

/-- Claim C3: in the write-back stage of `compute_online_prediction`, an output
field whose registered reverse-normalization target has coefficients
(mean = 1, scale = 2) and whose network output is the array `[3]` is written
back into the Exchange row as `[3 * 2 + 1] = [7]`. -/
theorem compute_online_reverse_normalization :
    compute_online_write_back [("X", ⟨[1], [3]⟩)] (fun f => f)
        [("X", ((1 : ℚ), 2))] [("X", ⟨[1], [0]⟩)] =
      [("X", ⟨[1], [7]⟩)] := by
  norm_num [compute_online_write_back, updateRow, normalize_data,
    NArr.reshape_flat, List.lookup]

/-- Claim C4: the spec says each output field is flattened to one dimension
before being written back.  The source evaluates `data_pred[field].reshape(-1)`
without assigning the result, so a two-dimensional prediction array of shape
`[1, 2]` is written back unchanged, although its flattened form (shape `[2]`)
differs from it; the row's non-prediction field is left untouched as the spec
says. -/
theorem compute_online_write_back_not_flattened :
    compute_online_write_back [("X", ⟨[1, 2], [1, 2]⟩)] (fun f => f) []
        [("X", ⟨[1, 2], [0, 0]⟩), ("step", ⟨[1], [42]⟩)] =
      [("X", ⟨[1, 2], [1, 2]⟩), ("step", ⟨[1], [42]⟩)] ∧
    (NArr.mk [1, 2] [1, 2]).reshape_flat ≠ NArr.mk [1, 2] [1, 2] :=
  ⟨rfl, by decide⟩

/-- Claim C5: applying `normalize_data` and then `normalize_data` with
`reverse = True` using the same (mean, scale) coefficients is the identity on
every array whenever the scale is nonzero (exact arithmetic). -/
theorem normalize_then_reverse_id (d : NArr) (m s : ℚ) (h : s ≠ 0) :
    normalize_data (normalize_data d (m, s) false) (m, s) true = d := by
  cases d with
  | mk shape elems =>
      have hpt : ∀ x : ℚ, (x - m) / s * s + m = x := by
        intro x
        field_simp
      simp only [normalize_data, Bool.false_eq_true, if_false, if_true, List.map_map,
        NArr.mk.injEq, true_and]
      calc List.map ((fun x => x * s + m) ∘ fun x => (x - m) / s) elems
          = List.map id elems := List.map_congr_left fun x _ => hpt x
        _ = elems := List.map_id elems

/-- Witness for C5 at the concrete array `[5, 6]` with coefficients (1, 2). -/
theorem normalize_then_reverse_id_witness :
    (2 : ℚ) ≠ 0 ∧
    normalize_data (normalize_data ⟨[2], [5, 6]⟩ ((1 : ℚ), 2) false)
        ((1 : ℚ), 2) true = ⟨[2], [5, 6]⟩ :=
  ⟨by norm_num, normalize_then_reverse_id ⟨[2], [5, 6]⟩ 1 2 (by norm_num)⟩

/-- Claim C6 counterexample: on an empty network directory `load_network`
raises `FileNotFoundError`, which is not an instance of Python's
`LookupError`, contrary to the claim that the failure is a `LookupError`. -/
theorem load_network_empty_not_lookup_error :
    load_network [] (-1) = .error .fileNotFoundError ∧
    PyErr.is_lookup_error .fileNotFoundError = false :=
  ⟨rfl, rfl⟩

/-- Claim C6 (amended): `load_network` on a network directory containing no
saved parameter set fails immediately with `FileNotFoundError`, for every
requested index. -/
theorem load_network_empty_file_not_found (w : ℤ) :
    load_network [] w = .error .fileNotFoundError :=
  rfl

/-- Claim C7: constructing a `NetworkManager` raises the fatal configuration
`ValueError` exactly when the pipeline is `training` and the configuration
does not supply both a loss and an optimizer; in every other case the
construction check passes. -/
theorem init_training_check_spec (c : NetworkConfigM) (p : String) :
    (init_training_check c p = .error .valueError ↔
      p = "training" ∧ training_stuff c = false) ∧
    (init_training_check c p = .ok () ↔
      ¬(p = "training" ∧ training_stuff c = false)) := by
  unfold init_training_check
  by_cases hp : p = "training" <;>
    cases hts : training_stuff c <;>
      simp [hp, hts]

/-- Claim C8: `link_clients` with a client count `n` on a fresh Exchange table
leaves the table with exactly `n` pre-allocated rows, and the only mutation
path (`update`) never changes the row count, so the count stays equal to the
worker count for the whole session. -/
theorem link_clients_row_count (db : ExchangeDB) (nf pf : List String) (n : ℕ)
    (h : db.rows = []) :
    (link_clients db nf pf (some n)).rows.length = n ∧
    ∀ (db2 : ExchangeDB) (i : ℕ) (data : XRow),
      (db_update db2 i data).rows.length = db2.rows.length := by
  constructor
  · simp [link_clients, add_empty_row_iterate_length, create_fields, h]
  · intro db2 i data
    simp [db_update]

/-- Witness for C8 on a fresh table with three clients. -/
theorem link_clients_row_count_witness :
    (ExchangeDB.mk [] []).rows = [] ∧
    ((link_clients ⟨[], []⟩ ["input"] ["pred"] (some 3)).rows.length = 3 ∧
     ∀ (db2 : ExchangeDB) (i : ℕ) (data : XRow),
       (db_update db2 i data).rows.length = db2.rows.length) :=
  ⟨rfl, link_clients_row_count ⟨[], []⟩ ["input"] ["pred"] 3 rfl⟩

/-- Claim C9: the launcher prints the usage message and exits with status 1
exactly when the number of positional arguments (the length of `argv` minus
the script name) differs from six, and proceeds to launch the client exactly
when it equals six. -/
theorem launcher_main_arg_count (argv : List String) :
    (launcher_main argv = .usage_exit 1 ↔ argv.length - 1 ≠ 6) ∧
    ((launcher_main argv).is_launch = true ↔ argv.length - 1 = 6) := by
  unfold launcher_main
  by_cases h : argv.length = 7
  · simp [h, LaunchResult.is_launch]
  · simp only [h, if_pos, ne_eq, not_false_eq_true, if_true, reduceCtorEq,
      LaunchResult.is_launch, false_iff, Bool.false_eq_true, true_iff]
    constructor
    · omega
    · omega

/-- Claim C10: `close` saves the terminal `networks` parameter file exactly
when the manager is in training mode; in prediction mode it writes no file and
leaves the save state unchanged. -/
theorem close_saves_networks_iff_training (s : SaveState) :
    (close true s).2 = ["networks"] ∧
    (close true s).1.files = writeFile "networks" s.files ∧
    (close false s).2 = [] ∧
    (close false s).1 = s := by
  simp [close, save_network]
